import Mathlib

/-
  Verification of the Meelo matcher API client (src/matcher/matcher/api.py)
  against its specification.

  The client is embedded shallowly: the HTTP transport is modelled as a pure
  function from requests to responses, the local filesystem as a partial map
  from paths to file contents, and each client operation returns an explicit
  record holding its result (success value or raised error), the list of HTTP
  requests it issued, the error-log lines it emitted, and the client state
  after the call.
-/

namespace Meelo

/-- JSON values, as parsed by response.json() and as passed to the
json argument of requests.post. -/
inductive Json where
  | null : Json
  | bool : Bool → Json
  | num : Int → Json
  | str : String → Json
  | arr : List Json → Json
  | obj : List (String × Json) → Json

/-- Dictionary access on a JSON object, as in obj["items"]: none when the
value is not an object or the key is absent (a Python KeyError / TypeError). -/
def Json.lookup (j : Json) (k : String) : Option Json :=
  match j with
  | .obj fields => fields.lookup k
  | _ => none

inductive Method where
  | GET : Method
  | POST : Method
deriving DecidableEq

/-- An HTTP request as handed to the requests library: method, full URL,
headers, the optional multipart file part (part name and file content) and
the optional JSON body. -/
structure HttpRequest where
  method : Method
  url : String
  headers : List (String × String)
  files : Option (String × String)
  json : Option Json

/-- An HTTP response: status code, raw body (response.content) and the
parsed JSON body (response.json()). -/
structure Response where
  status_code : Nat
  content : String
  jsonBody : Json

/-- Truthiness of a requests.Response object: its bool conversion returns
response.ok, which is true exactly when status_code < 400. -/
def Response.truthy (r : Response) : Bool :=
  r.status_code < 400

/-- The errors an API-client call can raise: a generic exception carrying the
raw response body (raise Exception(response.content)), a local file-open
failure (open(file_path, "rb")), or a JSON-decode / schema failure. -/
inductive APIError where
  | exn : String → APIError
  | fileOpen : String → APIError
  | decode : APIError
deriving DecidableEq

/-- Process environment as read at construction:
os.environ.get("API_URL") and os.environ.get("API_KEYS"). -/
structure Env where
  api_url : Option String
  api_keys : Option String
deriving DecidableEq

/-- The client state set by API.__init__ and held for the client lifetime. -/
structure APIState where
  _url : String
  _key : String
deriving DecidableEq

/-- Python str.split with a one-character separator, on the character list
of the string: splitting an empty list yields one empty piece, and every
occurrence of the separator opens a new piece, so the result is never the
empty list (str.split always returns at least one element). -/
def pySplitChar (sep : Char) : List Char → List (List Char)
  | [] => [[]]
  | c :: cs =>
    match pySplitChar sep cs with
    | r :: rs => if c = sep then [] :: r :: rs else (c :: r) :: rs
    | [] => [[c]]

/-- Python str.split(",") as used by API.__init__ on the API_KEYS value. -/
def pySplit (s : String) (sep : Char) : List String :=
  (pySplitChar sep s.toList).map (fun cs => { data := cs })

/-- API.__init__: reads API_URL (raising when absent or empty, since
Python "not self._url" is true for both None and ""), then takes the first
comma-separated entry of API_KEYS (with (... or "") turning an absent value
into ""), raising when that first entry is empty. -/
def API.init (env : Env) : Except String APIState :=
  match env.api_url with
  | none => .error "Missing env variable: API_URL"
  | some url =>
    if url = "" then .error "Missing env variable: API_URL"
    else
      let key := (pySplit (env.api_keys.getD "") ',').headD ""
      if key = "" then .error "Missing or empty env variable: API_KEYS"
      else .ok { _url := url, _key := key }

/-- The outcome of one client call: the returned value or raised error, the
HTTP requests issued during the call (in order), the logging.error lines
emitted, and the client state when the call returns or raises. -/
structure CallResult (α : Type) where
  result : Except APIError α
  requests : List HttpRequest
  log : List String
  state : APIState

/-- The GET request built by API._get: URL is the base URL concatenated with
the route, headers hold exactly the x-api-key credential, no body. -/
def API.getRequest (api : APIState) (route : String) : HttpRequest :=
  { method := .GET
    url := api._url ++ route
    headers := [("x-api-key", api._key)]
    files := none
    json := none }

/-- API._get: issue the GET request; when the status is not 200, log
"GETting API failed: " and raise Exception(response.content); otherwise
return the response. -/
def API._get (api : APIState) (transport : HttpRequest → Response)
    (route : String) : CallResult Response :=
  let req := API.getRequest api route
  let response := transport req
  if response.status_code ≠ 200 then
    { result := .error (.exn response.content)
      requests := [req]
      log := ["GETting API failed: "]
      state := api }
  else
    { result := .ok response
      requests := [req]
      log := []
      state := api }

/-- The POST request built by API._post from the already-evaluated files
argument and the json dictionary: the json body is sent only when the
dictionary has at least one key. -/
def API.postRequest (api : APIState) (route : String)
    (json : List (String × Json)) (files : Option (String × String)) :
    HttpRequest :=
  { method := .POST
    url := api._url ++ route
    headers := [("x-api-key", api._key)]
    files := files
    json := if json.length ≠ 0 then some (.obj json) else none }

/-- API._post: when file_path is non-empty, open the file first (raising a
local I/O error, before any HTTP traffic, when it cannot be opened) and
attach it as the single multipart part named "file"; issue the POST request;
when the status is not 201, log "POSTting API failed: " and raise
Exception(response.content); otherwise return the response. -/
def API._post (api : APIState) (fs : String → Option String)
    (transport : HttpRequest → Response) (route : String)
    (json : List (String × Json)) (file_path : String) : CallResult Response :=
  let fileArg : Except APIError (Option (String × String)) :=
    if file_path.length ≠ 0 then
      match fs file_path with
      | none => .error (.fileOpen file_path)
      | some content => .ok (some ("file", content))
    else .ok none
  match fileArg with
  | .error e =>
    { result := .error e, requests := [], log := [], state := api }
  | .ok files =>
    let req := API.postRequest api route json files
    let response := transport req
    if response.status_code ≠ 201 then
      { result := .error (.exn response.content)
        requests := [req]
        log := ["POSTting API failed: "]
        state := api }
    else
      { result := .ok response
        requests := [req]
        log := []
        state := api }

/-- The 201 status gate of API._post, once the request has been built:
used to state what API._post does whenever the file argument was
evaluated without error. -/
def postResult (api : APIState) (transport : HttpRequest → Response)
    (req : HttpRequest) : CallResult Response :=
  if (transport req).status_code ≠ 201 then
    { result := .error (.exn (transport req).content)
      requests := [req]
      log := ["POSTting API failed: "]
      state := api }
  else
    { result := .ok (transport req)
      requests := [req]
      log := []
      state := api }

/-- API.ping: truth-value of the response returned by the GET helper on the
root route (a requests.Response is truthy iff its status is below 400). -/
def API.ping (api : APIState) (transport : HttpRequest → Response) :
    CallResult Bool :=
  let r := API._get api transport "/"
  { result := r.result.map Response.truthy
    requests := r.requests
    log := r.log
    state := r.state }

/-- Modelled from the spec: the Provider record
(src/matcher/matcher/models/api/provider.py is not under src/) —
"identifier, name"; a read view of an external data provider. -/
structure Provider where
  id : Int
  name : String
deriving DecidableEq

/-- Modelled from the spec: decoding one provider object via
Provider.schema().load — requires a JSON object with an integer id field
and a string name field. -/
def Provider.load : Json → Option Provider
  | .obj fields => do
    let some (Json.num i) := fields.lookup "id" | none
    let some (Json.str n) := fields.lookup "name" | none
    pure { id := i, name := n }
  | _ => none

/-- The JSON object a provider record serialises to. -/
def Provider.toJson (p : Provider) : Json :=
  .obj [("id", .num p.id), ("name", .str p.name)]

/-- Modelled from the spec: Page, a generic wrapper around an ordered
sequence of items (src/matcher/matcher/models/api/page.py is not under
src/). -/
structure Page (T : Type) where
  items : List T
deriving DecidableEq

/-- Modelled from the spec: schema decoding with many set — decode each
element of the array in order, failing when any element fails, and keep the
server-provided order. -/
def loadMany {T : Type} (load : Json → Option T) : List Json → Option (List T)
  | [] => some []
  | x :: xs => do
    let t ← load x
    let ts ← loadMany load xs
    pure (t :: ts)

/-- API._to_page: reads obj["items"] (a decode failure when absent or when
obj is not an object), decodes it element by element in order with the
element schema (a decode failure when it is not an array or any element
fails), and wraps the decoded list in a Page. -/
def API._to_page {T : Type} (obj : Json) (load : Json → Option T) :
    Option (Page T) :=
  match obj.lookup "items" with
  | some (.arr xs) => (loadMany load xs).map (fun items => { items := items })
  | _ => none

/-- API.get_providers: GET /external-providers, then decode the JSON body
through API._to_page with the Provider schema. -/
def API.get_providers (api : APIState) (transport : HttpRequest → Response) :
    CallResult (Page Provider) :=
  let r := API._get api transport "/external-providers"
  match r.result with
  | .error e =>
    { result := .error e, requests := r.requests, log := r.log, state := api }
  | .ok resp =>
    match API._to_page resp.jsonBody Provider.load with
    | none =>
      { result := .error .decode, requests := r.requests, log := r.log,
        state := api }
    | some page =>
      { result := .ok page, requests := r.requests, log := r.log,
        state := api }

/-- Modelled from the spec: CreateProviderDto, an outbound request payload
containing just the provider name (src/matcher/matcher/models/api/dto.py is
not under src/). -/
structure CreateProviderDto where
  name : String
deriving DecidableEq

/-- Modelled from the spec: to_dict serialises the DTO to a one-key
dictionary mapping "name" to the provider name. -/
def CreateProviderDto.to_dict (d : CreateProviderDto) : List (String × Json) :=
  [("name", .str d.name)]

/-- API.post_provider: POST the serialised CreateProviderDto as JSON to
/external-providers, then decode the response body as a single Provider. -/
def API.post_provider (api : APIState) (fs : String → Option String)
    (transport : HttpRequest → Response) (provider_name : String) :
    CallResult Provider :=
  let dto : CreateProviderDto := { name := provider_name }
  let r := API._post api fs transport "/external-providers" dto.to_dict ""
  match r.result with
  | .error e =>
    { result := .error e, requests := r.requests, log := r.log, state := api }
  | .ok resp =>
    match Provider.load resp.jsonBody with
    | none =>
      { result := .error .decode, requests := r.requests, log := r.log,
        state := api }
    | some p =>
      { result := .ok p, requests := r.requests, log := r.log, state := api }

/-- API.post_provider_icon: POST with the icon file as the multipart payload
to the per-provider icon route; the response value is discarded. -/
def API.post_provider_icon (api : APIState) (fs : String → Option String)
    (transport : HttpRequest → Response) (provider_id : Int)
    (icon_path : String) : CallResult Unit :=
  let r := API._post api fs transport
    ("/external-providers/" ++ toString provider_id ++ "/icon") [] icon_path
  { result := r.result.map (fun _ => ())
    requests := r.requests
    log := r.log
    state := r.state }

/-! Concrete instances used to evaluate the theorems on closed inputs. -/

/-- A concrete client state. -/
def demoApi : APIState := { _url := "http://x", _key := "k1" }

/-- A concrete filesystem holding a single readable file, icon.png. -/
def demoFs : String → Option String :=
  fun p => if p = "icon.png" then some "BYTES" else none

/-- A transport that always answers 201 with an empty body. -/
def demoTransport201 : HttpRequest → Response :=
  fun _ => { status_code := 201, content := "", jsonBody := .null }

/-- A transport that always answers 404 with the body "not found". -/
def demoTransport404 : HttpRequest → Response :=
  fun _ => { status_code := 404, content := "not found", jsonBody := .null }

/-- A transport answering 200 with the two-provider items payload from the
specification example. -/
def demoTransportProviders : HttpRequest → Response :=
  fun _ =>
    { status_code := 200
      content := "providers"
      jsonBody := .obj [("items", .arr
        [.obj [("id", .num 1), ("name", .str "A")],
         .obj [("id", .num 2), ("name", .str "B")]])] }

/-- A transport answering 201 with the created-provider payload from the
specification example. -/
def demoTransportCreated : HttpRequest → Response :=
  fun _ =>
    { status_code := 201
      content := "created"
      jsonBody := .obj [("id", .num 5), ("name", .str "X")] }

/-! Helper lemmas shared by the claim theorems. -/

/-- Decoding the serialisation of a provider recovers the provider. -/
theorem Provider.load_toJson (p : Provider) : Provider.load p.toJson = some p :=
  rfl

/-- Element-wise decoding of a serialised provider list recovers the list,
in order. -/
theorem loadMany_load_toJson (ps : List Provider) :
    loadMany Provider.load (ps.map Provider.toJson) = some ps := by
  induction ps with
  | nil => rfl
  | cons p ps ih => simp [loadMany, Provider.load_toJson, ih]

/-- Looking up the items key of a one-field items object. -/
theorem lookup_items (x : Json) :
    (Json.obj [("items", x)]).lookup "items" = some x :=
  rfl

/-- The GET helper leaves the client state unchanged. -/
theorem get_state (api : APIState) (transport : HttpRequest → Response)
    (route : String) : (API._get api transport route).state = api := by
  by_cases h : (transport (API.getRequest api route)).status_code = 200 <;>
    simp [API._get, h]

/-- The POST helper leaves the client state unchanged. -/
theorem post_state (api : APIState) (fs : String → Option String)
    (transport : HttpRequest → Response) (route : String)
    (json : List (String × Json)) (file_path : String) :
    (API._post api fs transport route json file_path).state = api := by
  simp only [API._post]
  repeat' split
  all_goals rfl

/-- Full characterisation of the GET helper: one request, the 200 status
gate on its result, and the log line emitted exactly on failure. -/
theorem get_outcome (api : APIState) (transport : HttpRequest → Response)
    (route : String) :
    API._get api transport route =
      { result :=
          if (transport (API.getRequest api route)).status_code = 200 then
            Except.ok (transport (API.getRequest api route))
          else
            Except.error
              (APIError.exn (transport (API.getRequest api route)).content)
        requests := [API.getRequest api route]
        log :=
          if (transport (API.getRequest api route)).status_code = 200 then []
          else ["GETting API failed: "]
        state := api } := by
  by_cases h : (transport (API.getRequest api route)).status_code = 200 <;>
    simp [API._get, h]

/-- The GET helper issues exactly one request, the one it builds. -/
theorem get_requests (api : APIState) (transport : HttpRequest → Response)
    (route : String) :
    (API._get api transport route).requests = [API.getRequest api route] := by
  rw [get_outcome]

/-- The POST helper in terms of its file argument: an immediate local error
when the file cannot be opened, the built request through the 201 status
gate otherwise. -/
theorem post_eq (api : APIState) (fs : String → Option String)
    (transport : HttpRequest → Response) (route : String)
    (json : List (String × Json)) (file_path : String) :
    API._post api fs transport route json file_path =
      (if file_path.length ≠ 0 then
        match fs file_path with
        | none =>
          { result := Except.error (APIError.fileOpen file_path)
            requests := [], log := [], state := api }
        | some c =>
          postResult api transport
            (API.postRequest api route json (some ("file", c)))
      else postResult api transport (API.postRequest api route json none)) := by
  by_cases hl : file_path.length ≠ 0
  · cases hfs : fs file_path with
    | none => simp [API._post, hl, hfs]
    | some c => simp [API._post, postResult, hl, hfs]
  · simp [API._post, postResult, hl]

/-- The status-gated POST outcome issues exactly the built request. -/
theorem postResult_requests (api : APIState)
    (transport : HttpRequest → Response) (req : HttpRequest) :
    (postResult api transport req).requests = [req] := by
  by_cases h : (transport req).status_code ≠ 201 <;> simp [postResult, h]

/-- The status-gated POST outcome succeeds exactly on status 201, raising
the raw response body otherwise. -/
theorem postResult_result (api : APIState)
    (transport : HttpRequest → Response) (req : HttpRequest) :
    (postResult api transport req).result =
      if (transport req).status_code = 201 then Except.ok (transport req)
      else Except.error (APIError.exn (transport req).content) := by
  by_cases h : (transport req).status_code = 201 <;> simp [postResult, h]

/-- The status-gated POST outcome logs exactly on failure. -/
theorem postResult_log (api : APIState)
    (transport : HttpRequest → Response) (req : HttpRequest) :
    (postResult api transport req).log =
      if (transport req).status_code = 201 then []
      else ["POSTting API failed: "] := by
  by_cases h : (transport req).status_code = 201 <;> simp [postResult, h]

/-- The headers of the built GET request. -/
theorem getRequest_headers (api : APIState) (route : String) :
    (API.getRequest api route).headers = [("x-api-key", api._key)] :=
  rfl

/-- The headers of the built POST request. -/
theorem postRequest_headers (api : APIState) (route : String)
    (json : List (String × Json)) (files : Option (String × String)) :
    (API.postRequest api route json files).headers =
      [("x-api-key", api._key)] :=
  rfl

/-- The file part of the built POST request. -/
theorem postRequest_files (api : APIState) (route : String)
    (json : List (String × Json)) (files : Option (String × String)) :
    (API.postRequest api route json files).files = files :=
  rfl

/-- The JSON body of the built POST request: present exactly when the
supplied dictionary is non-empty. -/
theorem postRequest_json (api : APIState) (route : String)
    (json : List (String × Json)) (files : Option (String × String)) :
    (API.postRequest api route json files).json =
      if json.length ≠ 0 then some (Json.obj json) else none :=
  rfl

/-- Every request the POST helper issues carries the x-api-key header. -/
theorem post_headers_all (api : APIState) (fs : String → Option String)
    (transport : HttpRequest → Response) (route : String)
    (json : List (String × Json)) (file_path : String) :
    (API._post api fs transport route json file_path).requests.all
      (fun r => r.headers == [("x-api-key", api._key)]) = true := by
  rw [post_eq]
  by_cases hl : file_path.length ≠ 0
  · cases hfs : fs file_path with
    | none => simp [hl, hfs]
    | some c => simp [hl, hfs, postResult_requests, postRequest_headers]
  · simp [hl, postResult_requests, postRequest_headers]

/-- get_providers issues exactly the one GET request built for the
providers route. -/
theorem get_providers_requests (api : APIState)
    (transport : HttpRequest → Response) :
    (API.get_providers api transport).requests =
      [API.getRequest api "/external-providers"] := by
  simp only [API.get_providers]
  repeat' split
  all_goals rw [get_requests]

/-- post_provider issues exactly the requests of the underlying POST helper
call on the providers route with the serialised DTO. -/
theorem post_provider_requests (api : APIState) (fs : String → Option String)
    (transport : HttpRequest → Response) (provider_name : String) :
    (API.post_provider api fs transport provider_name).requests =
      (API._post api fs transport "/external-providers"
        [("name", Json.str provider_name)] "").requests := by
  simp only [API.post_provider, CreateProviderDto.to_dict]
  repeat' split
  all_goals rfl

/-- C1: ping() returns true when the GET to the root path receives an HTTP
200 response; for every non-200 response, ping does not return false — the
call propagates the failure raised by the underlying GET helper, which
carries the raw response body. -/
theorem C1_ping_true_on_200_propagates_otherwise
    (api : APIState) (transport : HttpRequest → Response) :
    (API.ping api transport).result =
      if (transport (API.getRequest api "/")).status_code = 200 then
        Except.ok true
      else
        Except.error
          (APIError.exn (transport (API.getRequest api "/")).content) := by
  unfold API.ping API._get
  by_cases h : (transport (API.getRequest api "/")).status_code = 200
  · simp [h, Response.truthy, Except.map]
  · simp [h, Except.map]

/-- C4: construction raises when the base-URL setting is absent; raises when
the API-key setting is absent or empty; and when the API-key setting holds a
comma-separated list of keys (first entry a non-empty key), construction
succeeds and stores only the first key (e.g. "k1,k2" stores "k1"). -/
theorem C4_construction
    (url keys k : String) (ks : List String) (e : Option String)
    (hurl : url ≠ "") (hk : k ≠ "")
    (hsplit : pySplit keys ',' = k :: ks) :
    API.init { api_url := none, api_keys := e } =
      Except.error "Missing env variable: API_URL" ∧
    API.init { api_url := some url, api_keys := none } =
      Except.error "Missing or empty env variable: API_KEYS" ∧
    API.init { api_url := some url, api_keys := some "" } =
      Except.error "Missing or empty env variable: API_KEYS" ∧
    API.init { api_url := some url, api_keys := some keys } =
      Except.ok { _url := url, _key := k } := by
  refine ⟨rfl, ?_, ?_, ?_⟩
  · simp [API.init, hurl, pySplit, pySplitChar]
  · simp [API.init, hurl, pySplit, pySplitChar]
  · simp [API.init, hurl, hsplit, hk]

/-- Witness for C4 with API_URL set and API_KEYS holding the two keys
k1 and k2. -/
theorem C4_construction_witness :
    ("http://x" : String) ≠ "" ∧ ("k1" : String) ≠ "" ∧
    pySplit "k1,k2" ',' = ["k1", "k2"] ∧
    (API.init { api_url := none, api_keys := some "k1,k2" } =
      Except.error "Missing env variable: API_URL" ∧
    API.init { api_url := some "http://x", api_keys := none } =
      Except.error "Missing or empty env variable: API_KEYS" ∧
    API.init { api_url := some "http://x", api_keys := some "" } =
      Except.error "Missing or empty env variable: API_KEYS" ∧
    API.init { api_url := some "http://x", api_keys := some "k1,k2" } =
      Except.ok { _url := "http://x", _key := "k1" }) :=
  ⟨by decide, by decide, by decide,
    C4_construction "http://x" "k1,k2" "k1" ["k2"] (some "k1,k2")
      (by decide) (by decide) (by decide)⟩

/-- C10: when the first comma-separated entry of the API-key setting is
empty, construction raises even when a non-empty key appears later in the
list: only the first entry is checked for non-emptiness. -/
theorem C10_empty_first_key_raises
    (url keys : String) (hurl : url ≠ "")
    (hfirst : (pySplit keys ',').headD "" = "") :
    API.init { api_url := some url, api_keys := some keys } =
      Except.error "Missing or empty env variable: API_KEYS" := by
  rw [List.headD_eq_head?] at hfirst
  simp [API.init, hurl, List.headD_eq_head?, hfirst]

/-- Witness for C10 with API_KEYS set to a list whose first entry is empty
but whose second entry is the non-empty key k2. -/
theorem C10_empty_first_key_raises_witness :
    ("http://x" : String) ≠ "" ∧ (pySplit ",k2" ',').headD "" = "" ∧
    API.init { api_url := some "http://x", api_keys := some ",k2" } =
      Except.error "Missing or empty env variable: API_KEYS" :=
  ⟨by decide, by decide,
    C10_empty_first_key_raises "http://x" ",k2" (by decide) (by decide)⟩

/-- C9: the client state (base URL and API key) set at construction is never
modified afterwards: ping, get_providers, post_provider and
post_provider_icon all leave both fields unchanged. -/
theorem C9_state_immutable
    (api : APIState) (fs : String → Option String)
    (transport : HttpRequest → Response) (provider_name : String)
    (provider_id : Int) (icon_path : String) :
    (API.ping api transport).state = api ∧
    (API.get_providers api transport).state = api ∧
    (API.post_provider api fs transport provider_name).state = api ∧
    (API.post_provider_icon api fs transport provider_id icon_path).state
      = api := by
  refine ⟨?_, ?_, ?_, ?_⟩
  · simp only [API.ping]
    exact get_state api transport "/"
  · simp only [API.get_providers]
    repeat' split
    all_goals rfl
  · simp only [API.post_provider]
    repeat' split
    all_goals rfl
  · simp only [API.post_provider_icon]
    exact post_state api fs transport
      ("/external-providers/" ++ toString provider_id ++ "/icon") [] icon_path

/-- C2 (amended): every request issued by the POST helper carries the JSON
body exactly when the supplied object is non-empty and the multipart file
exactly when the supplied file path is non-empty; the two payload modes are
therefore mutually exclusive whenever at most one payload is supplied, but a
call supplying both a non-empty object and a non-empty file path issues a
request carrying both at once. -/
theorem C2_post_payload_modes
    (api : APIState) (fs : String → Option String)
    (transport : HttpRequest → Response) (route : String)
    (json : List (String × Json)) (file_path : String) :
    (API._post api fs transport route json file_path).requests.all
      (fun r => (r.json.isSome == decide (json.length ≠ 0)) &&
        (r.files.isSome == decide (file_path.length ≠ 0))) = true := by
  rw [post_eq]
  by_cases hl : file_path.length ≠ 0
  · cases hfs : fs file_path with
    | none => simp [hl, hfs]
    | some c =>
      by_cases hj : json.length ≠ 0 <;>
        simp [hl, hfs, hj, postResult_requests, postRequest_json,
          postRequest_files]
  · by_cases hj : json.length ≠ 0 <;>
      simp [hl, hj, postResult_requests, postRequest_json, postRequest_files]

/-- C2 counterexample: a POST helper call supplying both a non-empty object
and a non-empty file path issues a request whose JSON body and multipart
file are both present, so the two payload modes are not mutually exclusive
for every call. -/
theorem C2_both_payloads_counterexample :
    ¬ ((API._post demoApi demoFs demoTransport201 "/r"
        [("a", Json.null)] "icon.png").requests.all
      (fun r => !(r.json.isSome && r.files.isSome)) = true) := by
  decide

/-- C3: for every route the GET helper succeeds exactly when the HTTP status
is 200 and the POST helper succeeds exactly when it is 201; on any other
status the call raises a generic error carrying the raw response body and an
error line is logged before the failure propagates. -/
theorem C3_status_gate
    (api : APIState) (fs : String → Option String)
    (transport : HttpRequest → Response) (groute proute : String)
    (json : List (String × Json)) (file_path : String) (req : HttpRequest)
    (hreq : (API._post api fs transport proute json file_path).requests
      = [req]) :
    ((API._get api transport groute).result =
      if (transport (API.getRequest api groute)).status_code = 200 then
        Except.ok (transport (API.getRequest api groute))
      else
        Except.error
          (APIError.exn (transport (API.getRequest api groute)).content)) ∧
    ((API._get api transport groute).log =
      if (transport (API.getRequest api groute)).status_code = 200 then []
      else ["GETting API failed: "]) ∧
    ((API._post api fs transport proute json file_path).result =
      if (transport req).status_code = 201 then Except.ok (transport req)
      else Except.error (APIError.exn (transport req).content)) ∧
    ((API._post api fs transport proute json file_path).log =
      if (transport req).status_code = 201 then []
      else ["POSTting API failed: "]) := by
  have hpost : API._post api fs transport proute json file_path =
      postResult api transport req := by
    rw [post_eq] at hreq ⊢
    by_cases hl : file_path.length ≠ 0
    · cases hfs : fs file_path with
      | none => simp [hl, hfs] at hreq
      | some c =>
        simp only [if_pos hl, hfs, postResult_requests,
          List.cons.injEq, and_true] at hreq
        simp only [if_pos hl, hfs, hreq]
    · simp only [if_neg hl, postResult_requests,
        List.cons.injEq, and_true] at hreq
      simp only [if_neg hl, hreq]
  exact ⟨by rw [get_outcome], by rw [get_outcome],
    by rw [hpost, postResult_result], by rw [hpost, postResult_log]⟩

/-- Witness for C3 on a transport answering 404 to every request. -/
theorem C3_status_gate_witness :
    ((API._post demoApi demoFs demoTransport404 "/p" [] "").requests =
      [API.postRequest demoApi "/p" [] none]) ∧
    ((API._get demoApi demoTransport404 "/g").result =
      Except.error (APIError.exn "not found")) ∧
    ((API._get demoApi demoTransport404 "/g").log =
      ["GETting API failed: "]) ∧
    ((API._post demoApi demoFs demoTransport404 "/p" [] "").result =
      Except.error (APIError.exn "not found")) ∧
    ((API._post demoApi demoFs demoTransport404 "/p" [] "").log =
      ["POSTting API failed: "]) := by
  have h := C3_status_gate demoApi demoFs demoTransport404 "/g" "/p" [] ""
    (API.postRequest demoApi "/p" [] none) rfl
  exact ⟨rfl, h.1, h.2.1, h.2.2.1, h.2.2.2⟩

/-- C5: get_providers on a 200 JSON response whose items field is an array
of provider objects returns a Page with one Provider record per array
element, in the server-provided order, with matching id and name fields. -/
theorem C5_get_providers_page
    (api : APIState) (transport : HttpRequest → Response) (ps : List Provider)
    (h200 : (transport (API.getRequest api "/external-providers")).status_code
      = 200)
    (hbody : (transport (API.getRequest api "/external-providers")).jsonBody =
      Json.obj [("items", Json.arr (ps.map Provider.toJson))]) :
    (API.get_providers api transport).result = Except.ok { items := ps } := by
  simp [API.get_providers, get_outcome, h200, API._to_page, hbody,
    lookup_items, loadMany_load_toJson]

/-- Witness for C5 on the two-provider response from the specification
example. -/
theorem C5_get_providers_page_witness :
    ((demoTransportProviders
        (API.getRequest demoApi "/external-providers")).status_code = 200) ∧
    ((demoTransportProviders
        (API.getRequest demoApi "/external-providers")).jsonBody =
      Json.obj [("items", Json.arr
        (([{ id := 1, name := "A" }, { id := 2, name := "B" }] :
          List Provider).map Provider.toJson))]) ∧
    ((API.get_providers demoApi demoTransportProviders).result =
      Except.ok { items :=
        [{ id := 1, name := "A" }, { id := 2, name := "B" }] }) :=
  ⟨rfl, rfl,
    C5_get_providers_page demoApi demoTransportProviders
      [{ id := 1, name := "A" }, { id := 2, name := "B" }] rfl rfl⟩

/-- C6: post_provider(name) sends a POST to /external-providers whose JSON
body is the one-key object mapping "name" to the given name, and on a 201
response carrying a provider object returns a Provider whose id and name
equal the response fields. -/
theorem C6_post_provider_sends_name
    (api : APIState) (fs : String → Option String)
    (transport : HttpRequest → Response) (provider_name : String)
    (p : Provider)
    (h201 : (transport (API.postRequest api "/external-providers"
      [("name", Json.str provider_name)] none)).status_code = 201)
    (hload : Provider.load (transport (API.postRequest api
      "/external-providers"
      [("name", Json.str provider_name)] none)).jsonBody = some p) :
    (API.post_provider api fs transport provider_name).requests =
      [API.postRequest api "/external-providers"
        [("name", Json.str provider_name)] none] ∧
    (API.postRequest api "/external-providers"
      [("name", Json.str provider_name)] none).method = Method.POST ∧
    (API.postRequest api "/external-providers"
      [("name", Json.str provider_name)] none).url =
        api._url ++ "/external-providers" ∧
    (API.postRequest api "/external-providers"
      [("name", Json.str provider_name)] none).json =
        some (Json.obj [("name", Json.str provider_name)]) ∧
    (API.post_provider api fs transport provider_name).result =
      Except.ok p := by
  have hr : API._post api fs transport "/external-providers"
      [("name", Json.str provider_name)] "" =
      postResult api transport (API.postRequest api "/external-providers"
        [("name", Json.str provider_name)] none) := by
    rw [post_eq]
    simp
  refine ⟨?_, rfl, rfl, rfl, ?_⟩
  · rw [post_provider_requests, hr, postResult_requests]
  · simp [API.post_provider, CreateProviderDto.to_dict, hr,
      postResult_result, h201, hload]

/-- Witness for C6 on the created-provider response from the specification
example. -/
theorem C6_post_provider_sends_name_witness :
    ((demoTransportCreated (API.postRequest demoApi "/external-providers"
      [("name", Json.str "X")] none)).status_code = 201) ∧
    (Provider.load (demoTransportCreated (API.postRequest demoApi
      "/external-providers" [("name", Json.str "X")] none)).jsonBody =
      some { id := 5, name := "X" }) ∧
    ((API.post_provider demoApi demoFs demoTransportCreated "X").requests =
      [API.postRequest demoApi "/external-providers"
        [("name", Json.str "X")] none]) ∧
    ((API.post_provider demoApi demoFs demoTransportCreated "X").result =
      Except.ok { id := 5, name := "X" }) := by
  have h := C6_post_provider_sends_name demoApi demoFs demoTransportCreated
    "X" { id := 5, name := "X" } rfl rfl
  exact ⟨rfl, rfl, h.1, h.2.2.2.2⟩

/-- C7 counterexample: with an empty path, the local file cannot be opened,
yet post_provider_icon raises nothing and still sends one HTTP request
(without any multipart part), because the code only opens the file when the
path is non-empty. -/
theorem C7_empty_path_counterexample :
    demoFs "" = none ∧
    (API.post_provider_icon demoApi demoFs demoTransport201 5 "").result =
      Except.ok () ∧
    (API.post_provider_icon demoApi demoFs demoTransport201 5
      "").requests.length = 1 :=
  ⟨rfl, rfl, rfl⟩

/-- C7 (amended): for every provider id and non-empty path,
post_provider_icon issues a multipart POST to the per-provider icon route
carrying the opened file as the single part, and raises without sending any
HTTP request when the local file at the path cannot be opened; with an empty
path no file is opened and the POST is sent without a multipart part. -/
theorem C7_post_provider_icon_multipart
    (api : APIState) (fs : String → Option String)
    (transport : HttpRequest → Response) (provider_id : Int)
    (icon_path : String) (hne : icon_path.length ≠ 0) :
    ((API.post_provider_icon api fs transport provider_id icon_path).requests
      = if (fs icon_path).isNone then []
        else [API.postRequest api
          ("/external-providers/" ++ toString provider_id ++ "/icon") []
          (some ("file", (fs icon_path).getD ""))]) ∧
    ((API.post_provider_icon api fs transport provider_id icon_path).result
      = if (fs icon_path).isNone then
          Except.error (APIError.fileOpen icon_path)
        else
          if (transport (API.postRequest api
              ("/external-providers/" ++ toString provider_id ++ "/icon") []
              (some ("file", (fs icon_path).getD "")))).status_code = 201
          then Except.ok ()
          else Except.error (APIError.exn (transport (API.postRequest api
              ("/external-providers/" ++ toString provider_id ++ "/icon") []
              (some ("file", (fs icon_path).getD "")))).content)) := by
  cases hfs : fs icon_path with
  | none =>
    constructor <;>
      simp [API.post_provider_icon, post_eq, hne, hfs, Except.map]
  | some c =>
    constructor <;>
      by_cases hs : (transport (API.postRequest api
          ("/external-providers/" ++ toString provider_id ++ "/icon") []
          (some ("file", c)))).status_code = 201 <;>
        simp [API.post_provider_icon, post_eq, hne, hfs, hs,
          postResult_requests, postResult_result, Except.map]

/-- Witness for C7 on a readable icon file and a transport answering 201. -/
theorem C7_post_provider_icon_multipart_witness :
    (("icon.png" : String).length ≠ 0) ∧
    ((API.post_provider_icon demoApi demoFs demoTransport201 5
        "icon.png").requests
      = if (demoFs "icon.png").isNone then []
        else [API.postRequest demoApi
          ("/external-providers/" ++ toString (5 : Int) ++ "/icon") []
          (some ("file", (demoFs "icon.png").getD ""))]) ∧
    ((API.post_provider_icon demoApi demoFs demoTransport201 5
        "icon.png").result
      = if (demoFs "icon.png").isNone then
          Except.error (APIError.fileOpen "icon.png")
        else
          if (demoTransport201 (API.postRequest demoApi
              ("/external-providers/" ++ toString (5 : Int) ++ "/icon") []
              (some ("file", (demoFs "icon.png").getD "")))).status_code = 201
          then Except.ok ()
          else Except.error (APIError.exn (demoTransport201
            (API.postRequest demoApi
              ("/external-providers/" ++ toString (5 : Int) ++ "/icon") []
              (some ("file", (demoFs "icon.png").getD "")))).content)) := by
  have h := C7_post_provider_icon_multipart demoApi demoFs demoTransport201 5
    "icon.png" (by decide)
  exact ⟨by decide, h.1, h.2⟩

/-- C8: every HTTP request issued by ping, get_providers, post_provider or
post_provider_icon carries the x-api-key header set to the key stored at
construction. -/
theorem C8_every_request_carries_api_key
    (api : APIState) (fs : String → Option String)
    (transport : HttpRequest → Response) (provider_name : String)
    (provider_id : Int) (icon_path : String) :
    ((API.ping api transport).requests.all
      (fun r => r.headers == [("x-api-key", api._key)]) = true) ∧
    ((API.get_providers api transport).requests.all
      (fun r => r.headers == [("x-api-key", api._key)]) = true) ∧
    ((API.post_provider api fs transport provider_name).requests.all
      (fun r => r.headers == [("x-api-key", api._key)]) = true) ∧
    ((API.post_provider_icon api fs transport provider_id
        icon_path).requests.all
      (fun r => r.headers == [("x-api-key", api._key)]) = true) := by
  refine ⟨?_, ?_, ?_, ?_⟩
  · simp only [API.ping]
    simp [get_requests, getRequest_headers]
  · simp [get_providers_requests, getRequest_headers]
  · rw [post_provider_requests]
    exact post_headers_all api fs transport "/external-providers"
      [("name", Json.str provider_name)] ""
  · simp only [API.post_provider_icon]
    exact post_headers_all api fs transport
      ("/external-providers/" ++ toString provider_id ++ "/icon") [] icon_path

end Meelo
